import Mathlib

/-!
A shallow embedding, in Lean 4, of the task/case orchestration core of the
deepflame-agent repository: the task registry (task_manager.json), the
region-append operation on registry entries, the region-injection protocol
for setFieldsDict files, and the scalar-field reader.  Python functions are
translated into pure Lean functions; the filesystem state a function touches
(the registry file, a case's setFieldsDict file) is passed and returned
explicitly, and Python exceptions are modelled with `Except String`.
Machine floats are modelled by exact rationals.
-/

/-- Substring test on character lists: `subPref pat s` is true when `pat`
is an initial segment of `s` (Python startswith on lists of chars). -/
def subPref : List Char → List Char → Bool
  | [], _ => true
  | _ :: _, [] => false
  | a :: as, b :: bs => a == b && subPref as bs

/-- `containsSub pat s` models the Python expression `pat in s` on strings:
`pat` occurs as a contiguous substring of `s`. -/
def containsSub (pat s : String) : Bool :=
  go pat.data s.data
where
  go (p : List Char) : List Char → Bool
    | [] => subPref p []
    | c :: rest => subPref p (c :: rest) || go p rest

deriving instance DecidableEq for Except

/-- A structured Python result dict, as returned by the agent-tool functions:
a `status` discriminator plus an optional `message` (success path) and an
optional `error_message` (error path). -/
structure ResultDict where
  status : String
  message : Option String
  error_message : Option String
deriving Repr, DecidableEq

/-- One ignition-zone region record, as stored in the registry and consumed
by the injector: `{"type": ..., "p1": [...], "p2": [...], "radius": ...}`. -/
structure Region where
  type : String
  p1 : List ℚ
  p2 : List ℚ
  radius : ℚ
deriving Repr, DecidableEq

/-- The `FuelConfig` default settings dict (configuration_handler.py). -/
structure FuelConfig where
  fuel : String
  equiv_ratio : ℚ
  temperature : ℚ
  pressure : ℚ
deriving Repr, DecidableEq

/-- The `BlockMeshDict` default settings dict (configuration_handler.py). -/
structure BlockMeshConfig where
  cells_per_direction : List ℕ
  domain_size : List ℚ
deriving Repr, DecidableEq

/-- The `SetFieldsDict` payload: an ordered list of regions
(configuration_handler.py; default settings dict is empty). -/
structure SetFieldsConfig where
  regions : List Region
deriving Repr, DecidableEq

/-- The `ControlDict` default settings dict (configuration_handler.py). -/
structure ControlConfig where
  endTime : ℚ
  deltaT : ℚ
  writeInterval : ℚ
deriving Repr, DecidableEq

/-- The value of `CaseConfiguration.to_dict()`: fuel, mesh, set-fields and
control sub-dicts. -/
structure CaseConfig where
  fuel : FuelConfig
  blockMeshDict : BlockMeshConfig
  setFieldsDict : SetFieldsConfig
  controlDict : ControlConfig
deriving Repr, DecidableEq

/-- One entry of the task registry: `{"case_type": ..., "case_config": ...}`. -/
structure RunCase where
  case_type : String
  case_config : CaseConfig
deriving Repr, DecidableEq

/-- The persisted task_manager.json content: the ordered mapping
`run_cases : name -> RunCase` (Python dicts preserve insertion order). -/
structure Registry where
  run_cases : List (String × RunCase)
deriving Repr, DecidableEq

/-- `CaseConfiguration.SUPPORTED_CASE_TYPES` (configuration_handler.py:100). -/
def caseConfigurationSupportedCaseTypes : List String :=
  ["1D_free_flame", "2D_HIT"]

/-- The default `CaseConfiguration('2D_HIT').to_dict()` value: the literals
of FuelConfig, BlockMeshDict, SetFieldsDict and ControlDict defaults
(0.05, 0.0003, 1e-6 and 1e-5 written as exact fractions). -/
def default2DHITConfig : CaseConfig :=
  ⟨⟨"H2", 1, 600, 1⟩,
   ⟨[1024, 1024], [mkRat 1 20, mkRat 1 20]⟩,
   ⟨[]⟩,
   ⟨mkRat 3 10000, mkRat 1 1000000, mkRat 1 100000⟩⟩

/-- `CaseConfiguration(case_type).to_dict()` (configuration_handler.py:99-143):
raises UnsupportedCaseTypeError for a case type outside the class set,
raises NotImplementedError for 1D_free_flame, and builds the default
sub-configurations for 2D_HIT.  Raised exceptions are modelled by
`Except.error` carrying the exception message. -/
def caseConfiguration (case_type : String) : Except String CaseConfig :=
  if ¬ (case_type ∈ caseConfigurationSupportedCaseTypes) then
    .error ("Unsupported case type: " ++ case_type)
  else if case_type = "1D_free_flame" then
    .error "The case type 1D_free_flame is not implemented."
  else
    .ok default2DHITConfig

/-- The run-case names and entries built by the loop of
`initialize_task_manager` (task_initialization.py:70-76):
`{case_type}_{i}` for `i = 1 .. case_num`, each with the default config. -/
def buildRunCases (case_type : String) (cfg : CaseConfig) (case_num : ℕ) :
    List (String × RunCase) :=
  (List.range' 1 case_num).map
    (fun i => (case_type ++ "_" ++ toString i, ⟨case_type, cfg⟩))

/-- `initialize_task_manager(case_type, case_num)`
(task_initialization.py:10-84).  The runtime environment is passed
explicitly: `supported` is the `SUPPORTED_CASE_TYPES` list read from
config.json, and `st` is the registry-file state (`none` = no
task_manager.json).  Returns the result dict together with the registry
state after the call.  The existence check precedes all validation; the
`CaseConfiguration` exception for an unbuildable type is caught by the
`except Exception` clause and surfaces as an error dict, before any write. -/
def init_task_manager (supported : List String) (st : Option Registry)
    (case_type : String) (case_num : ℤ) : ResultDict × Option Registry :=
  match st with
  | some reg =>
      (⟨"error", none,
        some "Task manager already exists. Call update_task_manager instead."⟩,
       some reg)
  | none =>
      if ¬ (case_type ∈ supported) then
        (⟨"error", none, some ("Unsupported case type: " ++ case_type)⟩, none)
      else if case_num ≤ 0 then
        (⟨"error", none, some "Invalid case number provided."⟩, none)
      else
        match caseConfiguration case_type with
        | .error e => (⟨"error", none, some e⟩, none)
        | .ok cfg =>
            (⟨"success", some "Task manager initialized successfully.", none⟩,
             some ⟨buildRunCases case_type cfg case_num.toNat⟩)

/-- Ordered-dict update: replace the value at `key`, keeping position
(Python `d[k] = v` for an existing key `k`). -/
def updateEntry (key : String) (v : RunCase) :
    List (String × RunCase) → List (String × RunCase)
  | [] => []
  | (k, w) :: rest =>
      if k = key then (k, v) :: rest else (k, w) :: updateEntry key v rest

/-- `add_region_config(case_name, region)` (setFields.py:10-85).  `st` is the
registry-file state; the function returns the result dict and the state
after the call.  A missing registry file raises FileNotFoundError, caught
and turned into an error dict; an unknown case name returns an error dict
before any write; otherwise the region is appended to the case's
`setFieldsDict.regions` and the whole registry is rewritten. -/
def add_region_config (st : Option Registry) (case_name : String)
    (region : Region) : ResultDict × Option Registry :=
  match st with
  | none =>
      (⟨"error", none, some "Task manager file not found"⟩, none)
  | some reg =>
      match reg.run_cases.lookup case_name with
      | none =>
          (⟨"error", none,
            some ("Run case " ++ case_name ++
              " does not exist in task_manager.json.")⟩, some reg)
      | some rc =>
          let rc' : RunCase :=
            ⟨rc.case_type,
             ⟨rc.case_config.fuel, rc.case_config.blockMeshDict,
              ⟨rc.case_config.setFieldsDict.regions ++ [region]⟩,
              rc.case_config.controlDict⟩⟩
          (⟨"success", some ("Added region to " ++ case_name ++ "."), none⟩,
           some ⟨updateEntry case_name rc' reg.run_cases⟩)

/-- The shared hard-coded fieldValues table embedded in the injection
templates (setFields.py:99-111): the physical state imposed inside every
ignition zone, as exact rationals. -/
def sharedFieldValues : List (String × ℚ) :=
  [("T", mkRat 25629164474426 10000000000),
   ("H", mkRat 1388161 10000000000),
   ("H2", mkRat 17201967 10000000000),
   ("O", mkRat 7829835 10000000000),
   ("OH", mkRat 88649505 10000000000),
   ("H2O", mkRat 2335677169 10000000000),
   ("O2", mkRat 97972807 10000000000),
   ("HO2", mkRat 40007 10000000000),
   ("H2O2", mkRat 4494 10000000000),
   ("N2", mkRat 7451236055 10000000000)]

/-- A rendered geometric-selection block, as built by `conduct_add_region`
(setFields.py:113-144).  Every block also carries the shared
`sharedFieldValues` table; since that part is one fixed constant it is not
repeated in each constructor. -/
inductive RenderedBlock where
  | cylinderToCell (p1 p2 : List ℚ) (radius : ℚ)
  | boxToCell (p1 p2 : List ℚ)
  | cylinderAnnulusToCell (p1 p2 : List ℚ) (innerRadius outerRadius : ℚ)
deriving Repr, DecidableEq

/-- The `if region == 'circle' / 'square' / 'ring'` chain of
`conduct_add_region` (setFields.py:113-144): there is no `else` branch, so
an unrecognized shape leaves the Python local `new_block` unassigned
(`none` here); for `ring` the outer radius is computed as `2 * radius`. -/
def buildBlock (region : String) (p1 p2 : List ℚ) (radius : ℚ) :
    Option RenderedBlock :=
  if region = "circle" then some (.cylinderToCell p1 p2 radius)
  else if region = "square" then some (.boxToCell p1 p2)
  else if region = "ring" then
    some (.cylinderAnnulusToCell p1 p2 radius (2 * radius))
  else none

/-- One line of a setFieldsDict file after zero or more injections: an
original text line, a bare "\n" padding line, or an inserted block. -/
inductive SFLine where
  | orig (s : String)
  | blank
  | block (b : RenderedBlock)
deriving Repr, DecidableEq

/-- The Python test `"regions" in line` (setFields.py:165) applied to a
file line.  A padding line is a bare newline and a rendered block's text
never contains the substring "regions", so only original text lines can
match. -/
def lineHasRegions : SFLine → Bool
  | .orig s => containsSub "regions" s
  | .blank => false
  | .block _ => false

/-- The insertion loop of `conduct_add_region` (setFields.py:152-167):
each line is copied; when the `inserted` flag is set the two padding
newlines and the new block are appended after the line just copied
(referencing the unassigned `new_block` raises NameError); the flag is
then set whenever the current line contains "regions". -/
def insertGo (b? : Option RenderedBlock) :
    List SFLine → Bool → Except String (List SFLine)
  | [], _ => .ok []
  | l :: rest, inserted =>
      if inserted then
        match b? with
        | none => .error "NameError"
        | some b =>
            match insertGo b? rest (lineHasRegions l) with
            | .error e => .error e
            | .ok out => .ok (l :: .blank :: .blank :: .block b :: out)
      else
        match insertGo b? rest (lineHasRegions l) with
        | .error e => .error e
        | .ok out => .ok (l :: out)

/-- The success dict of `conduct_add_region`: status plus the inserted
block (the set_fields_path entry is the unchanged input path). -/
structure ConductResult where
  status : String
  inserted_block : RenderedBlock
deriving Repr, DecidableEq

/-- `conduct_add_region(target_case_path, region, p1, p2, radius)`
(setFields.py:88-177).  `file` is the content of the case's
system/setFieldsDict (`none` = file missing, so the open raises
FileNotFoundError).  The function has no try/except: `Except.error`
models an exception escaping it.  The second component is the file
content after the call; the write at setFields.py:170-171 happens before
the returned dict mentions `new_block`, so with an unrecognized shape and
no triggered insertion the (unchanged) lines are still written back
before the NameError is raised at the return statement. -/
def conduct_add_region (region : String) (p1 p2 : List ℚ) (radius : ℚ)
    (file : Option (List SFLine)) :
    Except String ConductResult × Option (List SFLine) :=
  match file with
  | none => (.error "FileNotFoundError", none)
  | some lines =>
      let b? := buildBlock region p1 p2 radius
      match insertGo b? lines false with
      | .error e => (.error e, some lines)
      | .ok newLines =>
          match b? with
          | none => (.error "NameError", some newLines)
          | some b => (.ok ⟨"success", b⟩, some newLines)

/-- The possible ways a call to `add_target_case_region` ends: a normal
return (the function prints and returns None on success), a process
termination through `exit(code)`, or an uncaught exception. -/
inductive ProcOutcome where
  | returns
  | exits (code : ℕ)
  | raises (e : String)
deriving Repr, DecidableEq

/-- The per-region loop of `add_target_case_region` (setFields.py:206-214):
each region is passed to `conduct_add_region`; an exception raised there
propagates (there is no try/except), a non-success dict triggers
`exit(1)`, success moves to the next region. -/
def injectRegions : List Region → Option (List SFLine) →
    ProcOutcome × Option (List SFLine)
  | [], file => (.returns, file)
  | r :: rest, file =>
      match conduct_add_region r.type r.p1 r.p2 r.radius file with
      | (.error e, file') => (.raises e, file')
      | (.ok d, file') =>
          if d.status = "success" then injectRegions rest file'
          else (.exits 1, file')

/-- `add_target_case_region(target_case_name)` (setFields.py:180-216).
`st` is the registry-file state and `file` the target case's
setFieldsDict content.  A missing registry file or an unknown case name
triggers `exit(1)` (setFields.py:185,194); with no regions the final
print references the loop variable `idx` that was never bound, raising
NameError; otherwise each stored region is injected in order and the
function returns None (no result dict) on success. -/
def add_target_case_region (st : Option Registry) (target : String)
    (file : Option (List SFLine)) : ProcOutcome × Option (List SFLine) :=
  match st with
  | none => (.exits 1, file)
  | some reg =>
      match reg.run_cases.lookup target with
      | none => (.exits 1, file)
      | some rc =>
          match rc.case_config.setFieldsDict.regions with
          | [] => (.raises "NameError", file)
          | r :: rest => injectRegions (r :: rest) file

/-- A rendered block of the `conduct_add_region` variant in
df_case_tools.py (lines 87-168), whose p1/p2 come out of a JSON config as
already-formatted strings.  Its shape chain ends in a bare `else`, so any
shape other than circle and square renders the annulus block. -/
inductive DfctBlock where
  | cylinderToCell (p1 p2 : String) (radius : ℚ)
  | boxToCell (p1 p2 : String)
  | cylinderAnnulusToCell (p1 p2 : String) (innerRadius outerRadius : ℚ)
deriving Repr, DecidableEq

/-- The block-construction chain of df_case_tools.py:87-168: for the
`else` (ring) branch the outer radius is `radius2 = 2 * float(radius)`. -/
def dfct_build_block (region : String) (p1 p2 : String) (radius : ℚ) :
    DfctBlock :=
  if region = "circle" then .cylinderToCell p1 p2 radius
  else if region = "square" then .boxToCell p1 p2
  else .cylinderAnnulusToCell p1 p2 radius (2 * radius)

/-- Python whitespace test for str.split() / str.strip(). -/
def isPyWS (c : Char) : Bool :=
  c = ' ' || c = '\t' || c = '\n' || c = '\r' || c = '\x0b' || c = '\x0c'

/-- Python `s.split()`: split on runs of whitespace, dropping empty
pieces. -/
def splitWS (s : String) : List String :=
  go s.data []
where
  go : List Char → List Char → List String
    | [], acc => if acc.isEmpty then [] else [String.mk acc.reverse]
    | c :: rest, acc =>
        if isPyWS c then
          if acc.isEmpty then go rest [] else String.mk acc.reverse :: go rest []
        else go rest (c :: acc)

/-- Python `s.strip()`: drop leading and trailing whitespace. -/
def pyStrip (s : String) : String :=
  String.mk (((s.data.dropWhile isPyWS).reverse.dropWhile isPyWS).reverse)

/-- Numeric value of a digit list (most significant first). -/
def digitsVal : List Char → ℕ
  | [] => 0
  | c :: rest => (c.toNat - '0'.toNat) * 10 ^ rest.length + digitsVal rest

/-- Python `int(s)` on an already-stripped string: optional sign followed
by at least one digit; anything else raises ValueError (`none`). -/
def parseInt (s : String) : Option ℤ :=
  let core : List Char → Option ℤ := fun cs =>
    if cs.isEmpty ∨ ¬ cs.all Char.isDigit then none
    else some (digitsVal cs : ℤ)
  match s.data with
  | '-' :: rest => (core rest).map (fun v => -v)
  | '+' :: rest => core rest
  | cs => core cs

/-- Exact value of a decimal-scientific literal: sign, mantissa digits,
number of fractional digits, decimal exponent. -/
def sciToRat (sgn : ℤ) (mant : ℕ) (fracLen : ℕ) (ex : ℤ) : ℚ :=
  let p : ℤ := ex - (fracLen : ℤ)
  if 0 ≤ p then mkRat (sgn * (mant : ℤ) * 10 ^ p.toNat) 1
  else mkRat (sgn * (mant : ℤ)) (10 ^ (-p).toNat)

/-- Python `float(s)` restricted to plain decimal/scientific literals:
optional sign, digits with an optional fractional part (at least one
digit overall), and an optional exponent.  Returns `none` where Python
raises ValueError. -/
def parseFloat (s : String) : Option ℚ :=
  let (sgn, cs) : ℤ × List Char :=
    match s.data with
    | '-' :: rest => (-1, rest)
    | '+' :: rest => (1, rest)
    | cs => (1, cs)
  let ip := cs.takeWhile Char.isDigit
  let cs := cs.dropWhile Char.isDigit
  let (fp, cs) : List Char × List Char :=
    match cs with
    | '.' :: rest => (rest.takeWhile Char.isDigit, rest.dropWhile Char.isDigit)
    | _ => ([], cs)
  if ip.isEmpty ∧ fp.isEmpty then none
  else
    let mant := digitsVal (ip ++ fp)
    match cs with
    | [] => some (sciToRat sgn mant fp.length 0)
    | e :: rest =>
        if e = 'e' ∨ e = 'E' then
          let (esgn, rest) : ℤ × List Char :=
            match rest with
            | '-' :: rest' => (-1, rest')
            | '+' :: rest' => (1, rest')
            | rest' => (1, rest')
          if rest.isEmpty ∨ ¬ rest.all Char.isDigit then none
          else some (sciToRat sgn mant fp.length (esgn * (digitsVal rest : ℤ)))
        else none

/-- `np.loadtxt(selected_lines).reshape(-1)` for flat scalar data: every
whitespace-separated token of every line is parsed as a float, in file
order; blank lines contribute nothing; a bad token or an entirely empty
selection raises (`Except.error`). -/
def loadtxtFlat (ls : List String) : Except String (List ℚ) :=
  match ls.mapM (fun l => (splitWS l).mapM parseFloat) with
  | none => .error "ValueError"
  | some vss =>
      let vs := vss.flatten
      if vs.isEmpty then .error "ValueError" else .ok vs

/-- The value returned by `read_openfoam_scalar`: a single uniform value
or the list of per-cell values. -/
inductive ScalarValue where
  | uniform (v : ℚ)
  | series (vs : List ℚ)
deriving Repr, DecidableEq

/-- The scan loop of `read_openfoam_scalar` (df_agent_utils.py:16-35),
walking line index `i` upward.  On a line containing "internalField":
with a ";" the last whitespace token minus its final character is parsed
as the uniform value; otherwise line `i+1` is parsed as the count n and,
if line `i+2` contains "(" and line `i+2+n+1` contains ")", lines
`i+3 .. i+2+n` are fed to loadtxt; a failed bracket check falls through
to the next loop iteration.  Falling off the end returns the unassigned
`dim_array` (NameError); out-of-range reads raise IndexError, failed
conversions ValueError.  Python wrap-around indexing for a negative
parsed count is outside the modelled well-formed inputs and mapped to
IndexError.  The `fuel` argument only bounds the recursion and is
initialized to the line count, which the index never reaches. -/
def rosScan (lines : List String) : ℕ → ℕ → Except String ScalarValue
  | 0, _ => .error "NameError"
  | fuel + 1, i =>
      match lines.get? i with
      | none => .error "NameError"
      | some line =>
          if containsSub "internalField" line then
            if containsSub ";" line then
              match (splitWS line).getLast? with
              | none => .error "IndexError"
              | some t =>
                  match parseFloat (String.mk t.data.dropLast) with
                  | none => .error "ValueError"
                  | some v => .ok (.uniform v)
            else
              match lines.get? (i + 1) with
              | none => .error "IndexError"
              | some l1 =>
                  match parseInt (pyStrip l1) with
                  | none => .error "ValueError"
                  | some n =>
                      if n < 0 then .error "IndexError"
                      else
                        match lines.get? (i + 2) with
                        | none => .error "IndexError"
                        | some l2 =>
                            if containsSub "(" l2 then
                              match lines.get? (i + 2 + n.toNat + 1) with
                              | none => .error "IndexError"
                              | some l3 =>
                                  if containsSub ")" l3 then
                                    match loadtxtFlat
                                        ((lines.drop (i + 3)).take n.toNat) with
                                    | .error e => .error e
                                    | .ok vs => .ok (.series vs)
                                  else rosScan lines fuel (i + 1)
                            else rosScan lines fuel (i + 1)
          else rosScan lines fuel (i + 1)

/-- `read_openfoam_scalar(file_path)` (df_agent_utils.py:3-37), applied to
the file's lines.  The scan starts at line 0; the fuel bound equals the
line count, which the loop index can never exhaust before running off the
end of the file. -/
def read_openfoam_scalar (lines : List String) : Except String ScalarValue :=
  rosScan lines lines.length 0

/-- The run-case value produced by a successful add-region call: the same
case with the region appended to `setFieldsDict.regions`. -/
def appendRegion (rc : RunCase) (r : Region) : RunCase :=
  ⟨rc.case_type,
   ⟨rc.case_config.fuel, rc.case_config.blockMeshDict,
    ⟨rc.case_config.setFieldsDict.regions ++ [r]⟩,
    rc.case_config.controlDict⟩⟩

/-- The shape claimed for the post-injection file: one rendered block
standing immediately after an anchor line, separated from the untouched
original lines only by blank padding. -/
def blockInsertedRightAfterAnchor (lines out : List SFLine) : Prop :=
  ∃ (i : ℕ) (b : RenderedBlock) (p q : List SFLine),
    (∃ l, lines.get? i = some l ∧ lineHasRegions l = true) ∧
    (∀ x ∈ p, x = SFLine.blank) ∧ (∀ x ∈ q, x = SFLine.blank) ∧
    out = lines.take (i + 1) ++ p ++ [SFLine.block b] ++ q ++
      lines.drop (i + 1)

/-- Looking up the updated key after an ordered-dict update yields the new
value, provided the key was present. -/
theorem lookup_updateEntry_self (l : List (String × RunCase)) (k : String)
    (v w : RunCase) (h : l.lookup k = some w) :
    (updateEntry k v l).lookup k = some v := by
  induction l with
  | nil => simp [List.lookup] at h
  | cons hd tl ih =>
      obtain ⟨k', w'⟩ := hd
      by_cases hk : k' = k
      · subst hk
        simp [updateEntry, List.lookup]
      · simp only [updateEntry, if_neg hk, List.lookup]
        have hbeq : (k == k') = false := by
          simp [beq_eq_false_iff_ne]
          exact fun he => hk he.symm
        simp only [hbeq]
        simp only [List.lookup, hbeq] at h
        exact ih h

/-- Claim C4: if a registry file already exists, every call to the
initializer returns the AlreadyExists error dict and leaves the registry
state exactly as it was, for every configured supported set, case type
and count; in particular the call after a success (whose post-state is a
present registry) is rejected, so the operation is not idempotent. -/
theorem initTaskManager_rejects_existing (supported : List String)
    (reg : Registry) (case_type : String) (case_num : ℤ) :
    init_task_manager supported (some reg) case_type case_num =
      (⟨"error", none,
        some "Task manager already exists. Call update_task_manager instead."⟩,
       some reg) := rfl

/-- Claim C5: adding a region to a case name absent from the registry
returns the unknown-case error dict and returns a registry state
identical to the one before the call: no write happens on this path. -/
theorem addRegionConfig_unknown_case (reg : Registry) (case_name : String)
    (r : Region) (h : reg.run_cases.lookup case_name = none) :
    add_region_config (some reg) case_name r =
      (⟨"error", none,
        some ("Run case " ++ case_name ++
          " does not exist in task_manager.json.")⟩, some reg) := by
  simp [add_region_config, h]

/-- Witness for C5 at a concrete registry holding only 2D_HIT_1. -/
theorem addRegionConfig_unknown_case_witness :
    add_region_config
        (some ⟨[("2D_HIT_1", ⟨"2D_HIT", default2DHITConfig⟩)]⟩) "nonexistent"
        ⟨"circle", [0], [0], 1⟩ =
      (⟨"error", none,
        some ("Run case " ++ "nonexistent" ++
          " does not exist in task_manager.json.")⟩,
       some ⟨[("2D_HIT_1", ⟨"2D_HIT", default2DHITConfig⟩)]⟩) :=
  addRegionConfig_unknown_case
    ⟨[("2D_HIT_1", ⟨"2D_HIT", default2DHITConfig⟩)]⟩ "nonexistent"
    ⟨"circle", [0], [0], 1⟩ (by decide)

/-- A found case name makes `add_region_config` succeed, replacing the
entry in place by the appended one. -/
theorem addRegionConfig_found (reg : Registry) (name : String)
    (rc : RunCase) (r : Region)
    (h : reg.run_cases.lookup name = some rc) :
    add_region_config (some reg) name r =
      (⟨"success", some ("Added region to " ++ name ++ "."), none⟩,
       some ⟨updateEntry name (appendRegion rc r) reg.run_cases⟩) := by
  simp only [add_region_config, h, appendRegion]

/-- Claim C2: on an existing case, three successive add-region calls all
succeed and the persisted regions list of that case becomes the old list
with A, B, C appended in exactly that order; when the case started from
the default (empty) regions list it is exactly [A, B, C]. -/
theorem addRegionConfig_appends_in_order (reg : Registry) (name : String)
    (rc : RunCase) (A B C : Region)
    (h : reg.run_cases.lookup name = some rc) :
    (add_region_config (some reg) name A).1.status = "success" ∧
    (add_region_config (add_region_config (some reg) name A).2 name B).1.status
      = "success" ∧
    (add_region_config
        (add_region_config (add_region_config (some reg) name A).2 name B).2
        name C).1.status = "success" ∧
    ∃ reg3 rc3,
      (add_region_config
          (add_region_config (add_region_config (some reg) name A).2 name B).2
          name C).2 = some reg3 ∧
      reg3.run_cases.lookup name = some rc3 ∧
      rc3.case_config.setFieldsDict.regions =
        rc.case_config.setFieldsDict.regions ++ [A, B, C] ∧
      (rc.case_config.setFieldsDict.regions = [] →
        rc3.case_config.setFieldsDict.regions = [A, B, C]) := by
  have h1 := addRegionConfig_found reg name rc A h
  have hl1 : (updateEntry name (appendRegion rc A) reg.run_cases).lookup name
      = some (appendRegion rc A) := lookup_updateEntry_self _ _ _ _ h
  have h2 := addRegionConfig_found ⟨updateEntry name (appendRegion rc A)
    reg.run_cases⟩ name (appendRegion rc A) B hl1
  have hl2 : (updateEntry name (appendRegion (appendRegion rc A) B)
      (updateEntry name (appendRegion rc A) reg.run_cases)).lookup name
      = some (appendRegion (appendRegion rc A) B) :=
    lookup_updateEntry_self _ _ _ _ hl1
  have h3 := addRegionConfig_found
    ⟨updateEntry name (appendRegion (appendRegion rc A) B)
      (updateEntry name (appendRegion rc A) reg.run_cases)⟩ name
    (appendRegion (appendRegion rc A) B) C hl2
  have hl3 := lookup_updateEntry_self
    (updateEntry name (appendRegion (appendRegion rc A) B)
      (updateEntry name (appendRegion rc A) reg.run_cases)) name
    (appendRegion (appendRegion (appendRegion rc A) B) C)
    (appendRegion (appendRegion rc A) B) hl2
  simp only [h1, h2, h3]
  refine ⟨by trivial, by trivial, by trivial,
    ⟨updateEntry name (appendRegion (appendRegion (appendRegion rc A) B) C)
      (updateEntry name (appendRegion (appendRegion rc A) B)
        (updateEntry name (appendRegion rc A) reg.run_cases))⟩,
    appendRegion (appendRegion (appendRegion rc A) B) C, by trivial, ?_, ?_, ?_⟩
  · exact hl3
  · simp [appendRegion]
  · intro he
    simp [appendRegion, he]

/-- Witness for C2: a fresh default 2D_HIT case receives circle, square
and ring regions in order. -/
theorem addRegionConfig_appends_in_order_witness :
    (add_region_config
        (some ⟨[("2D_HIT_1", ⟨"2D_HIT", default2DHITConfig⟩)]⟩) "2D_HIT_1"
        ⟨"circle", [0], [0], 1⟩).1.status = "success" ∧
    (add_region_config
        (add_region_config
          (some ⟨[("2D_HIT_1", ⟨"2D_HIT", default2DHITConfig⟩)]⟩) "2D_HIT_1"
          ⟨"circle", [0], [0], 1⟩).2 "2D_HIT_1"
        ⟨"square", [0], [1], 2⟩).1.status = "success" ∧
    (add_region_config
        (add_region_config
          (add_region_config
            (some ⟨[("2D_HIT_1", ⟨"2D_HIT", default2DHITConfig⟩)]⟩) "2D_HIT_1"
            ⟨"circle", [0], [0], 1⟩).2 "2D_HIT_1"
          ⟨"square", [0], [1], 2⟩).2 "2D_HIT_1"
        ⟨"ring", [0], [1], 3⟩).1.status = "success" ∧
    ∃ reg3 rc3,
      (add_region_config
          (add_region_config
            (add_region_config
              (some ⟨[("2D_HIT_1", ⟨"2D_HIT", default2DHITConfig⟩)]⟩)
              "2D_HIT_1" ⟨"circle", [0], [0], 1⟩).2 "2D_HIT_1"
            ⟨"square", [0], [1], 2⟩).2 "2D_HIT_1"
          ⟨"ring", [0], [1], 3⟩).2 = some reg3 ∧
      reg3.run_cases.lookup "2D_HIT_1" = some rc3 ∧
      rc3.case_config.setFieldsDict.regions =
        (⟨"2D_HIT", default2DHITConfig⟩ :
          RunCase).case_config.setFieldsDict.regions ++
          [⟨"circle", [0], [0], 1⟩, ⟨"square", [0], [1], 2⟩,
           ⟨"ring", [0], [1], 3⟩] ∧
      ((⟨"2D_HIT", default2DHITConfig⟩ :
          RunCase).case_config.setFieldsDict.regions = [] →
        rc3.case_config.setFieldsDict.regions =
          [⟨"circle", [0], [0], 1⟩, ⟨"square", [0], [1], 2⟩,
           ⟨"ring", [0], [1], 3⟩]) :=
  addRegionConfig_appends_in_order
    ⟨[("2D_HIT_1", ⟨"2D_HIT", default2DHITConfig⟩)]⟩ "2D_HIT_1"
    ⟨"2D_HIT", default2DHITConfig⟩ ⟨"circle", [0], [0], 1⟩
    ⟨"square", [0], [1], 2⟩ ⟨"ring", [0], [1], 3⟩ (by decide)

/-- Claim C1 (amended): for a case type in the configured supported set
whose default configuration is constructible — which the class-level set
makes exactly 2D_HIT — and a positive count, with no pre-existing
registry, the initializer succeeds and the persisted registry holds
exactly `count` entries named 2D_HIT_1 .. 2D_HIT_count, each with the
default CaseConfiguration; the registry file is rewritten wholesale, so
reloading it yields this same value. -/
theorem initTaskManager_round_trip_2DHIT (supported : List String) (n : ℤ)
    (hsup : "2D_HIT" ∈ supported) (hn : 0 < n) :
    (init_task_manager supported none "2D_HIT" n).1.status = "success" ∧
    ∃ reg, (init_task_manager supported none "2D_HIT" n).2 = some reg ∧
      reg.run_cases.length = n.toNat ∧
      ∀ i : ℕ, i < n.toNat →
        reg.run_cases.get? i =
          some ("2D_HIT_" ++ toString (i + 1),
            ⟨"2D_HIT", default2DHITConfig⟩) := by
  have hc : caseConfiguration "2D_HIT" = .ok default2DHITConfig := by decide
  have hns : ¬ (n ≤ 0) := not_le.mpr hn
  simp only [init_task_manager, hsup, not_true_eq_false, if_false, hns,
    if_true, hc]
  refine ⟨by trivial, ⟨buildRunCases "2D_HIT" default2DHITConfig n.toNat⟩,
    by trivial, ?_, ?_⟩
  · simp [buildRunCases]
  · intro i hi
    simp only [buildRunCases, List.get?_eq_getElem?, List.getElem?_map,
      List.getElem?_range']
    simp [hi, Nat.add_comm]

/-- Counterexample for C1: 1D_free_flame is in the supported case-type
set, yet with it the initializer returns an error and persists nothing,
instead of creating a one-entry registry as the claim demands. -/
theorem initTaskManager_free_flame_counterexample :
    "1D_free_flame" ∈ caseConfigurationSupportedCaseTypes ∧
    init_task_manager ["1D_free_flame", "2D_HIT"] none "1D_free_flame" 1 =
      (⟨"error", none,
        some "The case type 1D_free_flame is not implemented."⟩, none) := by
  decide

/-- Witness for C1 (amended) at supported = [2D_HIT], count = 3. -/
theorem initTaskManager_round_trip_2DHIT_witness :
    (init_task_manager ["2D_HIT"] none "2D_HIT" 3).1.status = "success" ∧
    ∃ reg, (init_task_manager ["2D_HIT"] none "2D_HIT" 3).2 = some reg ∧
      reg.run_cases.length = (3 : ℤ).toNat ∧
      ∀ i : ℕ, i < (3 : ℤ).toNat →
        reg.run_cases.get? i =
          some ("2D_HIT_" ++ toString (i + 1),
            ⟨"2D_HIT", default2DHITConfig⟩) :=
  initTaskManager_round_trip_2DHIT ["2D_HIT"] 3 (by decide) (by decide)

/-- Claim C9: 1D_free_flame belongs to the class-level supported set,
its default configuration raises (NotImplementedError), and therefore
the initializer with case type 1D_free_flame returns an error status and
never creates a registry file, for every configured supported set and
every positive count. -/
theorem initTaskManager_free_flame_always_errors (supported : List String)
    (n : ℤ) (hn : 0 < n) :
    "1D_free_flame" ∈ caseConfigurationSupportedCaseTypes ∧
    (∃ e, caseConfiguration "1D_free_flame" = .error e) ∧
    (init_task_manager supported none "1D_free_flame" n).1.status = "error" ∧
    (init_task_manager supported none "1D_free_flame" n).2 = none := by
  have hc : caseConfiguration "1D_free_flame" =
      .error "The case type 1D_free_flame is not implemented." := by decide
  refine ⟨by decide, ⟨_, hc⟩, ?_, ?_⟩ <;>
  · by_cases hm : "1D_free_flame" ∈ supported
    · simp [init_task_manager, hm, not_le.mpr hn, hc]
    · simp [init_task_manager, hm]

/-- Witness for C9 at supported = [1D_free_flame], count = 1. -/
theorem initTaskManager_free_flame_always_errors_witness :
    (0 : ℤ) < 1 ∧
    ("1D_free_flame" ∈ caseConfigurationSupportedCaseTypes ∧
     (∃ e, caseConfiguration "1D_free_flame" = .error e) ∧
     (init_task_manager ["1D_free_flame"] none "1D_free_flame" 1).1.status
       = "error" ∧
     (init_task_manager ["1D_free_flame"] none "1D_free_flame" 1).2
       = none) :=
  ⟨by decide, initTaskManager_free_flame_always_errors ["1D_free_flame"] 1
    (by decide)⟩

/-- With a buildable block the insertion loop never raises: it always
returns some output list. -/
theorem insertGo_some_ok (b : RenderedBlock) (ls : List SFLine) :
    ∀ flag : Bool, ∃ out, insertGo (some b) ls flag = .ok out := by
  induction ls with
  | nil => intro flag; exact ⟨[], rfl⟩
  | cons l rest ih =>
      intro flag
      cases flag with
      | false =>
          obtain ⟨out, hout⟩ := ih (lineHasRegions l)
          exact ⟨l :: out, by simp [insertGo, hout]⟩
      | true =>
          obtain ⟨out, hout⟩ := ih (lineHasRegions l)
          exact ⟨l :: .blank :: .blank :: .block b :: out,
            by simp [insertGo, hout]⟩

/-- Claim C8: whenever region injection for a ring returns its success
dict, the inserted block is the annulus block whose inner radius is the
given radius and whose outer radius is exactly twice it; the
df_case_tools variant of the generator renders the same fixed 2x ratio.
The ratio is a function of the radius alone — no other argument can
change it. -/
theorem conductAddRegion_ring_outer_is_double (p1 p2 : List ℚ) (r : ℚ)
    (file : Option (List SFLine)) (d : ConductResult) (s1 s2 : String)
    (h : (conduct_add_region "ring" p1 p2 r file).1 = .ok d) :
    d.inserted_block = .cylinderAnnulusToCell p1 p2 r (2 * r) ∧
    dfct_build_block "ring" s1 s2 r =
      .cylinderAnnulusToCell s1 s2 r (2 * r) := by
  refine ⟨?_, rfl⟩
  cases file with
  | none => simp [conduct_add_region] at h
  | some lines =>
      have hb : buildBlock "ring" p1 p2 r =
          some (.cylinderAnnulusToCell p1 p2 r (2 * r)) := rfl
      obtain ⟨out, hout⟩ :=
        insertGo_some_ok (.cylinderAnnulusToCell p1 p2 r (2 * r)) lines false
      simp only [conduct_add_region, hb, hout] at h
      cases h
      rfl

/-- Witness for C8: a concrete ring injection into an empty dictionary. -/
theorem conductAddRegion_ring_outer_is_double_witness :
    (conduct_add_region "ring" [0] [0] 1 (some [])).1 =
      .ok ⟨"success", .cylinderAnnulusToCell [0] [0] 1 (2 * 1)⟩ ∧
    ((⟨"success", .cylinderAnnulusToCell [0] [0] 1 (2 * 1)⟩ :
        ConductResult).inserted_block =
      .cylinderAnnulusToCell [0] [0] 1 (2 * 1) ∧
     dfct_build_block "ring" "p1str" "p2str" 1 =
      .cylinderAnnulusToCell "p1str" "p2str" 1 (2 * 1)) :=
  ⟨rfl, conductAddRegion_ring_outer_is_double [0] [0] 1 (some []) _
    "p1str" "p2str" rfl⟩

/-- On a stretch of lines none of which contains "regions", the insertion
loop with an unset flag copies the lines unchanged. -/
theorem insertGo_clean (b? : Option RenderedBlock) (ls : List SFLine)
    (h : ∀ l ∈ ls, lineHasRegions l = false) :
    insertGo b? ls false = .ok ls := by
  induction ls with
  | nil => rfl
  | cons l rest ih =>
      have hl : lineHasRegions l = false := h l (by simp)
      have hr := ih (fun x hx => h x (by simp [hx]))
      simp [insertGo, hl, hr]

/-- An anchor-free prefix passes through the insertion loop unchanged and
the loop continues on the remaining lines. -/
theorem insertGo_clean_front (b : RenderedBlock) (tail out : List SFLine)
    (htail : insertGo (some b) tail false = .ok out) :
    ∀ pre : List SFLine, (∀ l ∈ pre, lineHasRegions l = false) →
      insertGo (some b) (pre ++ tail) false = .ok (pre ++ out) := by
  intro pre
  induction pre with
  | nil => intro _; simpa using htail
  | cons x xs ih =>
      intro hpre
      have hx : lineHasRegions x = false := hpre x (by simp)
      have hxs := ih (fun l hl => hpre l (by simp [hl]))
      simp [insertGo, hx, hxs]

/-- The insertion loop with no block available either copies the file
unchanged (when the flag is never consumed) or raises NameError. -/
theorem insertGo_none_cases (ls : List SFLine) :
    ∀ flag : Bool, insertGo none ls flag = .ok ls ∨
      insertGo none ls flag = .error "NameError" := by
  induction ls with
  | nil => intro flag; left; rfl
  | cons l rest ih =>
      intro flag
      cases flag with
      | true => right; simp [insertGo]
      | false =>
          rcases ih (lineHasRegions l) with h | h
          · left; simp [insertGo, h]
          · right; simp [insertGo, h]

/-- Counterexample for C3: in the three-line dictionary
[regions, (, )] the anchor is the first line, yet the block is rendered
after the second line, so the output is not of the claimed
immediately-after-the-anchor shape (modulo blank padding). -/
theorem conductAddRegion_insert_position_counterexample :
    (conduct_add_region "circle" [0] [0] 1
        (some [.orig "regions", .orig "(", .orig ")"])).2 =
      some [.orig "regions", .orig "(", .blank, .blank,
            .block (.cylinderToCell [0] [0] 1), .orig ")"] ∧
    ¬ blockInsertedRightAfterAnchor
        [.orig "regions", .orig "(", .orig ")"]
        [.orig "regions", .orig "(", .blank, .blank,
         .block (.cylinderToCell [0] [0] 1), .orig ")"] := by
  constructor
  · decide
  · rintro ⟨i, b, p, q, ⟨l, hget, hanch⟩, hp, hq, heq⟩
    cases i with
    | zero =>
        cases p with
        | nil => simp at heq
        | cons x p' =>
            have hx : x = SFLine.blank := hp x (by simp)
            subst hx
            simp at heq
    | succ i' =>
        cases i' with
        | zero =>
            have hl : l = SFLine.orig "(" := by
              simp [List.get?] at hget
              exact hget.symm
            rw [hl] at hanch
            exact absurd hanch (by decide)
        | succ i'' =>
            cases i'' with
            | zero =>
                have hl : l = SFLine.orig ")" := by
                  simp [List.get?] at hget
                  exact hget.symm
                rw [hl] at hanch
                exact absurd hanch (by decide)
            | succ i''' => simp [List.get?] at hget

/-- Claim C3 (amended): with a recognized shape, a file holding exactly
one line containing the "regions" marker, and at least one line after
that anchor, injection keeps every original line in order and inserts
exactly one rendered block — after the line FOLLOWING the anchor (not
immediately after the anchor itself), preceded by two blank padding
lines. -/
theorem conductAddRegion_insertion_shape (shape : String)
    (p1 p2 : List ℚ) (r : ℚ) (b : RenderedBlock)
    (pre post : List SFLine) (anchor nxt : SFLine)
    (hb : buildBlock shape p1 p2 r = some b)
    (hpre : ∀ l ∈ pre, lineHasRegions l = false)
    (ha : lineHasRegions anchor = true)
    (hn : lineHasRegions nxt = false)
    (hpost : ∀ l ∈ post, lineHasRegions l = false) :
    conduct_add_region shape p1 p2 r (some (pre ++ anchor :: nxt :: post)) =
      (.ok ⟨"success", b⟩,
       some (pre ++ anchor :: nxt :: .blank :: .blank :: .block b ::
         post)) := by
  have hpost' := insertGo_clean (some b) post hpost
  have hcore : insertGo (some b) (anchor :: nxt :: post) false =
      .ok (anchor :: nxt :: .blank :: .blank :: .block b :: post) := by
    simp [insertGo, ha, hn, hpost']
  have hall := insertGo_clean_front b _ _ hcore pre hpre
  simp [conduct_add_region, hb, hall]

/-- Witness for C3 (amended) on a concrete four-line dictionary. -/
theorem conductAddRegion_insertion_shape_witness :
    conduct_add_region "circle" [0] [0] 1
        (some ([.orig "header"] ++ .orig "regions" :: .orig "(" ::
          [.orig ")"])) =
      (.ok ⟨"success", .cylinderToCell [0] [0] 1⟩,
       some ([.orig "header"] ++ .orig "regions" :: .orig "(" ::
         .blank :: .blank :: .block (.cylinderToCell [0] [0] 1) ::
         [.orig ")"])) :=
  conductAddRegion_insertion_shape "circle" [0] [0] 1
    (.cylinderToCell [0] [0] 1) [.orig "header"] [.orig ")"]
    (.orig "regions") (.orig "(") rfl (by decide) (by decide) (by decide)
    (by decide)

/-- With an unrecognized shape the injector leaves the file content
unchanged and an uncaught NameError escapes: either the insertion loop
references the unassigned block, or — when no insertion fires — the
unchanged lines are rewritten and the return statement references it. -/
theorem conductAddRegion_unrecognized_shape (shape : String)
    (p1 p2 : List ℚ) (r : ℚ) (lines : List SFLine)
    (h1 : shape ≠ "circle") (h2 : shape ≠ "square") (h3 : shape ≠ "ring") :
    conduct_add_region shape p1 p2 r (some lines) =
      (.error "NameError", some lines) := by
  have hb : buildBlock shape p1 p2 r = none := by
    simp [buildBlock, h1, h2, h3]
  rcases insertGo_none_cases lines false with h | h
  · simp [conduct_add_region, hb, h]
  · simp [conduct_add_region, hb, h]

/-- Counterexample for C7: injection with shape "triangle" does not
return an UnsupportedShape error dict — the call raises NameError
(while indeed leaving the dictionary content unchanged). -/
theorem conductAddRegion_triangle_counterexample :
    (conduct_add_region "triangle" [0] [0] 1
        (some [.orig "regions", .orig "("])).1 = .error "NameError" ∧
    (conduct_add_region "triangle" [0] [0] 1
        (some [.orig "regions", .orig "("])).2 =
      some [.orig "regions", .orig "("] := by
  decide

/-- Claim C7 (amended): registry initialization with a case type outside
the configured supported set performs no write and returns the
unsupported-case-type error dict; region injection with a shape outside
the three recognized values never returns an UnsupportedShape error —
it raises an uncaught NameError — though the dictionary content is
indeed left unchanged. -/
theorem unsupported_inputs_no_side_effects :
    (∀ (supported : List String) (ct : String) (n : ℤ),
      ct ∉ supported →
      init_task_manager supported none ct n =
        (⟨"error", none, some ("Unsupported case type: " ++ ct)⟩, none)) ∧
    (∀ (shape : String) (p1 p2 : List ℚ) (r : ℚ) (lines : List SFLine),
      shape ≠ "circle" → shape ≠ "square" → shape ≠ "ring" →
      conduct_add_region shape p1 p2 r (some lines) =
        (.error "NameError", some lines)) := by
  constructor
  · intro supported ct n hct
    simp [init_task_manager, hct]
  · intro shape p1 p2 r lines h1 h2 h3
    exact conductAddRegion_unrecognized_shape shape p1 p2 r lines h1 h2 h3

/-- Witness for C7 (amended): concrete unlisted case type and concrete
triangle shape. -/
theorem unsupported_inputs_no_side_effects_witness :
    init_task_manager ["1D_free_flame", "2D_HIT"] none "3D_FLOW" 2 =
      (⟨"error", none, some ("Unsupported case type: " ++ "3D_FLOW")⟩,
       none) ∧
    conduct_add_region "triangle" [0] [1] 1 (some [.orig "FoamFile"]) =
      (.error "NameError", some [.orig "FoamFile"]) :=
  ⟨unsupported_inputs_no_side_effects.1 ["1D_free_flame", "2D_HIT"]
    "3D_FLOW" 2 (by decide),
   unsupported_inputs_no_side_effects.2 "triangle" [0] [1] 1
    [.orig "FoamFile"] (by decide) (by decide) (by decide)⟩

/-- Counterexample for C6: the case-level region injection entry point,
called with no registry file present, terminates the process through
exit(1) instead of returning a structured result dict. -/
theorem addTargetCaseRegion_exits_counterexample :
    add_target_case_region none "2D_HIT_1" (some [.orig "regions"]) =
      (.exits 1, some [.orig "regions"]) := by
  decide

/-- Claim C6 (amended): the registry tool entry points
(initialize_task_manager, add_region_config) do return a structured dict
with a success-or-error status for every input; but the injection layer
breaks the propagation policy: add_target_case_region terminates the
process via exit(1) on a missing registry, and conduct_add_region lets
exceptions escape uncaught (NameError on an unrecognized shape). -/
theorem result_dict_policy :
    (∀ (supported : List String) (st : Option Registry) (ct : String)
       (n : ℤ),
      (init_task_manager supported st ct n).1.status = "success" ∨
      (init_task_manager supported st ct n).1.status = "error") ∧
    (∀ (st : Option Registry) (name : String) (r : Region),
      (add_region_config st name r).1.status = "success" ∨
      (add_region_config st name r).1.status = "error") ∧
    (add_target_case_region none "anycase" none).1 = .exits 1 ∧
    (conduct_add_region "triangle" [] [] 0 (some [])).1 =
      .error "NameError" := by
  refine ⟨?_, ?_, rfl, rfl⟩
  · intro supported st ct n
    cases st with
    | some reg => right; rfl
    | none =>
        by_cases hct : ct ∈ supported
        · by_cases hn : n ≤ 0
          · right; simp [init_task_manager, hct, hn]
          · cases hcc : caseConfiguration ct with
            | error e => right; simp [init_task_manager, hct, hn, hcc]
            | ok cfg => left; simp [init_task_manager, hct, hn, hcc]
        · right; simp [init_task_manager, hct]
  · intro st name r
    cases st with
    | none => right; rfl
    | some reg =>
        cases hl : reg.run_cases.lookup name with
        | none => right; simp [add_region_config, hl]
        | some rc => left; simp [add_region_config, hl]

/-- One scan step over a line without the "internalField" marker moves
to the next index, spending one unit of fuel. -/
theorem rosScan_skip (lines : List String) (fuel i : ℕ) (line : String)
    (h : lines.get? i = some line)
    (hcl : containsSub "internalField" line = false) :
    rosScan lines (fuel + 1) i = rosScan lines fuel (i + 1) := by
  have h' : lines[i]? = some line := by simpa using h
  simp [rosScan, h', hcl]

/-- Scanning across a stretch of marker-free lines advances the index by
its length. -/
theorem rosScan_advance (lines : List String) :
    ∀ (d i fuel : ℕ),
      (∀ j, j < d → ∃ lj, lines.get? (i + j) = some lj ∧
        containsSub "internalField" lj = false) →
      rosScan lines (fuel + d) i = rosScan lines fuel (i + d) := by
  intro d
  induction d with
  | zero => intro i fuel _; rfl
  | succ d' ih =>
      intro i fuel hcl
      obtain ⟨l0, hl0, hc0⟩ := hcl 0 (Nat.succ_pos d')
      rw [show fuel + (d' + 1) = (fuel + d') + 1 from rfl]
      rw [rosScan_skip lines (fuel + d') i l0 (by simpa using hl0) hc0]
      rw [ih (i + 1) fuel (fun j hj => by
        obtain ⟨lj, hlj, hcj⟩ := hcl (j + 1) (Nat.succ_lt_succ hj)
        exact ⟨lj, by rw [show i + 1 + j = i + (j + 1) by omega]; exact hlj,
          hcj⟩)]
      rw [show i + 1 + d' = i + (d' + 1) by omega]

/-- A successful monadic map over Option preserves the length. -/
theorem mapM_some_length {α β : Type} (f : α → Option β) :
    ∀ (ls : List α) (vs : List β), ls.mapM f = some vs →
      vs.length = ls.length := by
  intro ls
  induction ls with
  | nil =>
      intro vs h
      simp only [List.mapM_nil, pure] at h
      cases h
      rfl
  | cons x xs ih =>
      intro vs h
      rw [List.mapM_cons] at h
      cases hfx : f x with
      | none => rw [hfx] at h; simp at h
      | some y =>
          rw [hfx] at h
          cases hxs : xs.mapM f with
          | none => rw [hxs] at h; simp at h
          | some ys =>
              rw [hxs] at h
              simp at h
              rw [← h]
              simp [ih ys hxs]

/-- Flattening a list of one-element lists keeps the outer length. -/
theorem flatten_length_of_singletons :
    ∀ vss : List (List ℚ), (∀ v ∈ vss, v.length = 1) →
      vss.flatten.length = vss.length := by
  intro vss
  induction vss with
  | nil => intro _; rfl
  | cons v vs ih =>
      intro h
      have hv : v.length = 1 := h v (by simp)
      have hvs := ih (fun x hx => h x (by simp [hx]))
      simp [List.flatten, hv, hvs, Nat.add_comm]

/-- When every line before index i lacks the "internalField" marker, the
reader's scan reaches index i with the remaining fuel. -/
theorem read_scan_from (lines : List String) (i : ℕ)
    (hlen : i < lines.length)
    (hprev : ∀ j, j < i → ∃ lj, lines.get? j = some lj ∧
      containsSub "internalField" lj = false) :
    read_openfoam_scalar lines = rosScan lines (lines.length - i) i := by
  have hs : lines.length = (lines.length - i) + i := by omega
  calc read_openfoam_scalar lines
      = rosScan lines ((lines.length - i) + i) 0 := by
        rw [read_openfoam_scalar, ← hs]
    _ = rosScan lines (lines.length - i) (0 + i) :=
        rosScan_advance lines i 0 (lines.length - i) (fun j hj => by
          obtain ⟨lj, hlj, hcj⟩ := hprev j hj
          exact ⟨lj, by simpa using hlj, hcj⟩)
    _ = rosScan lines (lines.length - i) i := by rw [Nat.zero_add]

/-- An index holding a value is inside the list. -/
theorem get?_some_lt (lines : List String) (i : ℕ) (l : String)
    (h : lines.get? i = some l) : i < lines.length := by
  by_contra hnot
  rw [List.get?_eq_none.mpr (Nat.le_of_not_lt hnot)] at h
  cases h

/-- Claim C10: on a well-formed scalar field file, the reader returns the
uniform value parsed from the first internalField line when that line
carries a ";", and, in the non-uniform layout, returns exactly the n
listed values in file order. -/
theorem read_openfoam_scalar_wellformed :
    (∀ (lines : List String) (i : ℕ) (line t : String) (v : ℚ),
      lines.get? i = some line →
      (∀ j, j < i → ∃ lj, lines.get? j = some lj ∧
        containsSub "internalField" lj = false) →
      containsSub "internalField" line = true →
      containsSub ";" line = true →
      (splitWS line).getLast? = some t →
      parseFloat (String.mk t.data.dropLast) = some v →
      read_openfoam_scalar lines = .ok (.uniform v)) ∧
    (∀ (lines : List String) (i m : ℕ) (line l1 l2 l3 : String)
       (vss : List (List ℚ)),
      lines.get? i = some line →
      (∀ j, j < i → ∃ lj, lines.get? j = some lj ∧
        containsSub "internalField" lj = false) →
      containsSub "internalField" line = true →
      containsSub ";" line = false →
      lines.get? (i + 1) = some l1 →
      parseInt (pyStrip l1) = some (m : ℤ) →
      0 < m →
      lines.get? (i + 2) = some l2 →
      containsSub "(" l2 = true →
      lines.get? (i + 2 + m + 1) = some l3 →
      containsSub ")" l3 = true →
      ((lines.drop (i + 3)).take m).mapM
        (fun l => (splitWS l).mapM parseFloat) = some vss →
      (∀ v ∈ vss, v.length = 1) →
      read_openfoam_scalar lines = .ok (.series vss.flatten) ∧
        vss.flatten.length = m) := by
  constructor
  · intro lines i line t v hline hprev hIF hSemi hT hV
    have hlen := get?_some_lt lines i line hline
    obtain ⟨f, hf⟩ : ∃ f, lines.length - i = f + 1 :=
      ⟨lines.length - i - 1, by omega⟩
    rw [read_scan_from lines i hlen hprev, hf]
    have h' : lines[i]? = some line := by simpa using hline
    simp [rosScan, h', hIF, hSemi, hT, hV]
  · intro lines i m line l1 l2 l3 vss hline hprev hIF hSemi h1 hPI hm h2
      hParen h3 hClose hSel hOne
    have hlen := get?_some_lt lines i line hline
    have hlen3 := get?_some_lt lines (i + 2 + m + 1) l3 h3
    have hselLen : ((lines.drop (i + 3)).take m).length = m := by
      simp only [List.length_take, List.length_drop]
      omega
    have hvssLen : vss.length = m := by
      rw [mapM_some_length _ _ _ hSel, hselLen]
    have hflatLen : vss.flatten.length = m := by
      rw [flatten_length_of_singletons vss hOne, hvssLen]
    have hne : vss.flatten.isEmpty = false := by
      cases hfl : vss.flatten with
      | nil => rw [hfl] at hflatLen; simp at hflatLen; omega
      | cons a as => rfl
    have hload : loadtxtFlat ((lines.drop (i + 3)).take m) =
        .ok vss.flatten := by
      unfold loadtxtFlat
      rw [hSel]
      simp [hne]
    obtain ⟨f, hf⟩ : ∃ f, lines.length - i = f + 1 :=
      ⟨lines.length - i - 1, by omega⟩
    have h' : lines[i]? = some line := by simpa using hline
    have h1' : lines[i + 1]? = some l1 := by simpa using h1
    have h2' : lines[i + 2]? = some l2 := by simpa using h2
    have h3' : lines[i + 2 + m + 1]? = some l3 := by simpa using h3
    have hm0 : ¬ ((m : ℤ) < 0) := not_lt.mpr (Int.natCast_nonneg m)
    refine ⟨?_, hflatLen⟩
    rw [read_scan_from lines i hlen hprev, hf]
    simp [rosScan, h', hIF, hSemi, h1', hPI, hm0, h2', hParen, h3', hClose,
      hload]

/-- Witness for C10: a concrete uniform file and a concrete three-value
non-uniform file. -/
theorem read_openfoam_scalar_wellformed_witness :
    read_openfoam_scalar ["FoamFile", "internalField   uniform 300;"] =
      .ok (.uniform 300) ∧
    (read_openfoam_scalar
        ["header", "internalField nonuniform", "3", "(", "1.5", "2",
         "-4e-1", ")", ";"] =
      .ok (.series ([[mkRat 3 2], [2], [mkRat (-2) 5]] :
        List (List ℚ)).flatten) ∧
      ([[mkRat 3 2], [2], [mkRat (-2) 5]] : List (List ℚ)).flatten.length
        = 3) :=
  ⟨read_openfoam_scalar_wellformed.1
    ["FoamFile", "internalField   uniform 300;"] 1
    "internalField   uniform 300;" "300;" 300 (by decide)
    (fun j hj => by
      interval_cases j
      exact ⟨"FoamFile", by decide, by decide⟩)
    (by decide) (by decide) (by decide) (by decide),
   read_openfoam_scalar_wellformed.2
    ["header", "internalField nonuniform", "3", "(", "1.5", "2", "-4e-1",
     ")", ";"] 1 3 "internalField nonuniform" "3" "(" ")"
    [[mkRat 3 2], [2], [mkRat (-2) 5]] (by decide)
    (fun j hj => by
      interval_cases j
      exact ⟨"header", by decide, by decide⟩)
    (by decide) (by decide) (by decide) (by decide) (by decide) (by decide)
    (by decide) (by decide) (by decide) (by decide) (by decide)⟩
